import Mathlib

/-!
Verification of the NSGTree resumable pipeline orchestrator
(`src/nsgtree/main.py`, `src/workflow/scripts/concat.py`,
`src/workflow/scripts/reformat.py`) against its natural-language
specification.

Embedding conventions:
* a file on disk is an `Option Nat` (`none` = missing, `some n` = present
  with size `n` bytes); a globbed set of files is a `List Nat` of the sizes
  of the files that were found (globbing only ever returns existing files);
* external tools and script sub-calls are oracles `String → Except String Nat`
  (`Except.error` models a raised Python exception, `Except.ok n` a completed
  call whose output file has size `n`);
* strings manipulated character-wise by the scripts are embedded as
  `List Char`.
-/

namespace NSGTree

/-- Probe `f.exists() and f.stat().st_size > 0` used throughout `main.py`
(zero-byte files fail this probe). -/
def file_nonempty : Option Nat → Bool
  | some n => decide (0 < n)
  | none => false

/-! ### Resource monitor (`ResourceMonitor`, main.py lines 28-189)

`_parse_and_log_time_output` parses one `/usr/bin/time` sample and folds it
into `self.total_resources`: wall time and cpu time (user + sys) are added,
peak memory is a running maximum, `commands_executed` is incremented. -/

/-- One parsed `/usr/bin/time` sample (main.py lines 109-118): wall seconds,
user seconds, sys seconds and the max-RSS figure in KB. -/
structure TimeSample where
  wall_time : ℚ
  user_time : ℚ
  sys_time : ℚ
  max_memory_kb : ℕ
deriving DecidableEq

/-- The running totals `self.total_resources` (main.py lines 35-40). -/
structure ResourceTotals where
  wall_time_seconds : ℚ
  cpu_time_seconds : ℚ
  max_memory_gb : ℚ
  commands_executed : ℕ
deriving DecidableEq

/-- Initial totals set in `ResourceMonitor.__init__` (main.py lines 35-40). -/
def init_totals : ResourceTotals :=
  { wall_time_seconds := 0, cpu_time_seconds := 0
    max_memory_gb := 0, commands_executed := 0 }

/-- The totals update of `_parse_and_log_time_output` (main.py lines 117-126):
`cpu_time = user + sys`, `max_memory_gb = kb / (1024*1024)`, wall and cpu are
added to the totals, memory is a `max`, the command counter is incremented. -/
def parse_and_log_time_output (t : ResourceTotals) (s : TimeSample) : ResourceTotals :=
  { wall_time_seconds := t.wall_time_seconds + s.wall_time
    cpu_time_seconds := t.cpu_time_seconds + (s.user_time + s.sys_time)
    max_memory_gb := max t.max_memory_gb ((s.max_memory_kb : ℚ) / (1024 * 1024))
    commands_executed := t.commands_executed + 1 }

/-- Aggregation of a run's monitored commands: each sample is folded into the
totals in invocation order, starting from the zero totals. -/
def record_samples (samples : List TimeSample) : ResourceTotals :=
  samples.foldl parse_and_log_time_output init_totals

/-- Folding samples from an arbitrary starting total adds the wall times, adds
the user+sys times, maxes the memory figures and counts the samples. -/
lemma record_samples_from (samples : List TimeSample) (t : ResourceTotals) :
    samples.foldl parse_and_log_time_output t =
      { wall_time_seconds := t.wall_time_seconds + (samples.map TimeSample.wall_time).sum
        cpu_time_seconds :=
          t.cpu_time_seconds + (samples.map (fun s => s.user_time + s.sys_time)).sum
        max_memory_gb :=
          samples.foldl (fun a s => max a ((s.max_memory_kb : ℚ) / (1024 * 1024)))
            t.max_memory_gb
        commands_executed := t.commands_executed + samples.length } := by
  induction samples generalizing t with
  | nil => simp
  | cons s rest ih =>
    rw [List.foldl_cons, ih]
    simp only [parse_and_log_time_output, List.map_cons, List.sum_cons,
      List.length_cons, List.foldl_cons, ResourceTotals.mk.injEq]
    refine ⟨by ring, by ring, trivial, by omega⟩

/-- C7: resource accounting aggregates per-command samples by summing wall
times, summing user+sys times, taking the maximum (not the sum) of the memory
figures, and counting the samples; in particular five commands each with
wall = 2 s, cpu = 1 s and peak memory 1 GB (1048576 KB) total wall = 10 s,
cpu = 5 s, peak memory = 1 GB, commands_executed = 5. -/
theorem resource_accounting :
    (∀ samples : List TimeSample,
        record_samples samples =
          { wall_time_seconds := (samples.map TimeSample.wall_time).sum
            cpu_time_seconds := (samples.map (fun s => s.user_time + s.sys_time)).sum
            max_memory_gb :=
              samples.foldl (fun a s => max a ((s.max_memory_kb : ℚ) / (1024 * 1024))) 0
            commands_executed := samples.length })
    ∧ record_samples (List.replicate 5
        { wall_time := 2, user_time := 1, sys_time := 0, max_memory_kb := 1048576 }) =
        { wall_time_seconds := 10, cpu_time_seconds := 5
          max_memory_gb := 1, commands_executed := 5 } := by
  constructor
  · intro samples
    have h := record_samples_from samples init_totals
    simpa [record_samples, init_totals] using h
  · norm_num [record_samples, parse_and_log_time_output, init_totals,
      List.replicate, max_def]

/-! ### Workflow termination paths (`run_workflow`, main.py lines 367-512)

The body of `run_workflow` is one `try`: on success it generates the final
resource report (if the monitor was initialized) and returns the output
directory; in the `except` handler it generates the same report (again only
if the monitor was initialized) and re-raises.  We embed the tail of both
paths as an observable event trace. -/

/-- Observable events at the end of `run_workflow`. -/
inductive RunEvent where
  | report
  | success (outdir : String)
  | raised (msg : String)
deriving DecidableEq

/-- Trace of `run_workflow`'s termination (main.py lines 487-512): the body
outcome is either `Except.ok outdir` (all steps completed) or
`Except.error msg` (some step raised); the final report is emitted exactly
when the resource monitor was initialized, before returning or re-raising. -/
def run_workflow (monitor_initialized : Bool) (body : Except String String) :
    List RunEvent :=
  match body with
  | Except.ok outdir =>
      (if monitor_initialized then [RunEvent.report] else []) ++ [RunEvent.success outdir]
  | Except.error msg =>
      (if monitor_initialized then [RunEvent.report] else []) ++ [RunEvent.raised msg]

/-- C8: whenever the resource monitor has been initialized, the final resource
report is generated on every termination path of `run_workflow`: on success
the report is emitted and then the run directory is returned, and on any
exception the report is emitted and then the exception is re-raised. -/
theorem final_report_on_every_path :
    (∀ outdir : String,
        run_workflow true (Except.ok outdir) = [RunEvent.report, RunEvent.success outdir])
    ∧ (∀ msg : String,
        run_workflow true (Except.error msg) = [RunEvent.report, RunEvent.raised msg]) :=
  ⟨fun _ => rfl, fun _ => rfl⟩

/-! ### Checkpoint/resume engine (main.py lines 245-365)

`_find_existing_analysis` globs `<analysisname_base>_*` under the base output
directory, keeps the candidates for which `_is_resumable_analysis` holds,
scores each with `_calculate_analysis_progress`, sorts descending by
`(progress, mtime)` (Python's stable sort with `reverse=True`) and returns the
head.  An `AnalysisDir` records exactly the file-system facts those three
functions probe. -/

/-- File-system state of one candidate analysis directory, as probed by
`_is_resumable_analysis` and `_calculate_analysis_progress`:
booleans are directory-existence probes, `Option Nat` fields are single files
(`none` missing, `some n` present with `n` bytes), `List Nat` fields are the
sizes of the files a `glob` call finds. -/
structure AnalysisDir where
  is_dir : Bool
  workflow_log_exists : Bool
  /-- top-level `<analysisname>.treefile` (main.py lines 332, 350). -/
  final_tree : Option Nat
  /-- `analyses/finaltree/fasttree/<analysisname>.complete` (line 357). -/
  fasttree_complete_exists : Bool
  /-- `analyses/finaltree/iqtree/<analysisname>.complete` (line 358). -/
  iqtree_complete_exists : Bool
  analyses_dir_exists : Bool
  reformatted_dir_exists : Bool
  /-- sizes of `analyses/reformatted_faa/*.faa` (line 283). -/
  reformatted_faa_files : List Nat
  /-- `analyses/tmp/merged.faa` (line 287). -/
  merged_faa : Option Nat
  hmmout_dir_exists : Bool
  /-- sizes of `analyses/hmmout/*.out` (line 294). -/
  hmm_out_files : List Nat
  /-- sizes of `analyses/hmmout/*.counts` plus `*.removedtaxa` (line 300). -/
  filter_files : List Nat
  hits_dir_exists : Bool
  /-- sizes of `analyses/hits_faa/*.faa` (line 307). -/
  hit_files : List Nat
  aligned_t_dir_exists : Bool
  /-- sizes of `analyses/aligned_t/*.mafft_t` (line 314). -/
  aligned_files : List Nat
  proteintrees_dir_exists : Bool
  /-- sizes of `proteintrees/*.treefile` (line 321). -/
  tree_files : List Nat
  /-- top-level `<analysisname>.mafft_t` (line 327). -/
  concat_file : Option Nat
  mtime : Nat
deriving DecidableEq

/-- Step 1 probe (main.py lines 282-284): reformatted dir exists and the
`*.faa` glob is non-empty. -/
def reformat_done (d : AnalysisDir) : Bool :=
  d.reformatted_dir_exists && !d.reformatted_faa_files.isEmpty

/-- Step 2 probe (lines 287-289): `merged.faa` exists with size > 0. -/
def merged_done (d : AnalysisDir) : Bool :=
  file_nonempty d.merged_faa

/-- Step 3 probe (lines 292-296): hmmout dir exists, the `*.out` glob is
non-empty and at least one hit of the glob has size > 0. -/
def hmm_done (d : AnalysisDir) : Bool :=
  d.hmmout_dir_exists && !d.hmm_out_files.isEmpty
    && d.hmm_out_files.any (fun n => decide (0 < n))

/-- Step 4 probe (lines 299-302): hmmout dir exists and the
`*.counts` / `*.removedtaxa` glob is non-empty (the `any(f.exists())` clause
is vacuous since a glob only returns existing files). -/
def filter_done (d : AnalysisDir) : Bool :=
  d.hmmout_dir_exists && !d.filter_files.isEmpty

/-- Step 5 probe (lines 305-309): hits dir exists and the `*.faa` glob is
non-empty (no size check here). -/
def hits_done (d : AnalysisDir) : Bool :=
  d.hits_dir_exists && !d.hit_files.isEmpty

/-- Step 6 probe (lines 312-316): aligned_t dir exists, the `*.mafft_t` glob
is non-empty and some file has size > 0. -/
def aligned_done (d : AnalysisDir) : Bool :=
  d.aligned_t_dir_exists && !d.aligned_files.isEmpty
    && d.aligned_files.any (fun n => decide (0 < n))

/-- Step 7 probe (lines 319-323): proteintrees dir exists, the `*.treefile`
glob is non-empty and some file has size > 0. -/
def ptrees_done (d : AnalysisDir) : Bool :=
  d.proteintrees_dir_exists && !d.tree_files.isEmpty
    && d.tree_files.any (fun n => decide (0 < n))

/-- Step 8 probe (lines 326-329): the concatenated alignment exists with
size > 0. -/
def concat_done (d : AnalysisDir) : Bool :=
  file_nonempty d.concat_file

/-- Step 9 probe (lines 332-334): the final tree exists with size > 0. -/
def final_done (d : AnalysisDir) : Bool :=
  file_nonempty d.final_tree

/-- The progress score of `_calculate_analysis_progress` (main.py lines
272-336): 0 if the `analyses` sub-directory is missing, otherwise the sum of
the fixed per-stage weights 10, 5, 15, 5, 10, 15, 15, 20, 10 over the stages
whose probe holds. -/
def calculate_analysis_progress (d : AnalysisDir) : Nat :=
  if d.analyses_dir_exists then
    (if reformat_done d then 10 else 0)
    + (if merged_done d then 5 else 0)
    + (if hmm_done d then 15 else 0)
    + (if filter_done d then 5 else 0)
    + (if hits_done d then 10 else 0)
    + (if aligned_done d then 15 else 0)
    + (if ptrees_done d then 15 else 0)
    + (if concat_done d then 20 else 0)
    + (if final_done d then 10 else 0)
  else 0

/-- The resumability check `_is_resumable_analysis` (main.py lines 338-365):
a candidate is resumable iff it is a directory, it has a `workflow.log`, its
final tree file is missing or empty, and neither species-tree completion
marker exists. -/
def is_resumable_analysis (d : AnalysisDir) : Bool :=
  if !d.is_dir then false
  else if !d.workflow_log_exists then false
  else if file_nonempty d.final_tree then false
  else if d.fasttree_complete_exists || d.iqtree_complete_exists then false
  else true

/-- Sort key of `_find_existing_analysis` (main.py line 268):
`(progress score, modification time)`. -/
def sort_key (d : AnalysisDir) : Nat × Nat :=
  (calculate_analysis_progress d, d.mtime)

/-- Lexicographic strict order on sort keys (Python tuple comparison). -/
def key_lt (a b : Nat × Nat) : Bool :=
  decide (a.1 < b.1) || (a.1 == b.1 && decide (a.2 < b.2))

/-- Head of a stable descending sort by `key_lt`: the first element among
those with the maximal key. -/
def select_best (d : AnalysisDir) (ds : List AnalysisDir) : AnalysisDir :=
  ds.foldl (fun best x => if key_lt (sort_key best) (sort_key x) then x else best) d

/-- The run-selection function `_find_existing_analysis` (main.py lines
245-270): `none` when forcing a new run or the base directory is missing,
otherwise the highest-(progress, mtime) candidate among the directories
matching the identity prefix that pass the resumability check. -/
def find_existing_analysis (force_new base_exists : Bool)
    (matching_dirs : List AnalysisDir) : Option AnalysisDir :=
  if force_new || !base_exists then none
  else if matching_dirs.isEmpty then none
  else
    match matching_dirs.filter is_resumable_analysis with
    | [] => none
    | d :: ds => some (select_best d ds)

/-- A fold that at each step keeps either the accumulator or the list element
produces an element of `a :: l`. -/
lemma foldl_choice_mem {α : Type} (f : α → α → Bool) :
    ∀ (l : List α) (a : α),
      l.foldl (fun best x => if f best x then x else best) a ∈ a :: l := by
  intro l
  induction l with
  | nil => intro a; simp
  | cons b l ih =>
    intro a
    rw [List.foldl_cons]
    have h := ih (if f a b then b else a)
    by_cases hf : f a b = true
    · rw [if_pos hf] at h ⊢
      exact List.mem_cons_of_mem _ h
    · rw [if_neg hf] at h ⊢
      rcases List.mem_cons.mp h with h1 | h1
      · rw [h1]; exact List.mem_cons_self _ _
      · exact List.mem_cons_of_mem _ (List.mem_cons_of_mem _ h1)

/-- Whatever `_find_existing_analysis` returns passed the resumability
check. -/
lemma find_existing_analysis_resumable (fn be : Bool) (dirs : List AnalysisDir)
    (r : AnalysisDir) (h : find_existing_analysis fn be dirs = some r) :
    is_resumable_analysis r = true := by
  unfold find_existing_analysis at h
  by_cases h1 : (fn || !be) = true
  · rw [if_pos h1] at h; exact absurd h (by simp)
  · rw [if_neg h1] at h
    by_cases h2 : dirs.isEmpty = true
    · rw [if_pos h2] at h; exact absurd h (by simp)
    · rw [if_neg h2] at h
      cases hfil : dirs.filter is_resumable_analysis with
      | nil => rw [hfil] at h; exact absurd h (by simp)
      | cons d ds =>
        rw [hfil] at h
        have hr : select_best d ds = r := by simpa using h
        have hmem : select_best d ds ∈ d :: ds := foldl_choice_mem _ ds d
        rw [← hfil] at hmem
        rw [← hr]
        exact List.of_mem_filter hmem

/-- C1: an analysis directory whose final tree file exists with positive size,
or whose species-tree completion marker exists, fails the resumability check;
consequently the run-selection function never returns it — in particular not
when it is the only candidate matching the identity prefix. -/
theorem resume_exclusion (d : AnalysisDir)
    (hc : file_nonempty d.final_tree = true
        ∨ d.fasttree_complete_exists = true ∨ d.iqtree_complete_exists = true) :
    is_resumable_analysis d = false
    ∧ (∀ (fn be : Bool) (dirs : List AnalysisDir),
        find_existing_analysis fn be dirs ≠ some d)
    ∧ find_existing_analysis false true [d] = none := by
  have h1 : is_resumable_analysis d = false := by
    unfold is_resumable_analysis
    rcases hc with h | h | h <;> simp [h]
  refine ⟨h1, ?_, ?_⟩
  · intro fn be dirs hsome
    have := find_existing_analysis_resumable fn be dirs d hsome
    rw [h1] at this
    exact Bool.false_ne_true this
  · unfold find_existing_analysis
    simp [List.filter, h1]

/-- Closed instance of C1: a concrete completed directory (non-empty final
tree) is not resumable and is not selected even as the only candidate. -/
theorem resume_exclusion_witness :
    is_resumable_analysis
      { is_dir := true, workflow_log_exists := true, final_tree := some 7
        fasttree_complete_exists := false, iqtree_complete_exists := false
        analyses_dir_exists := true, reformatted_dir_exists := true
        reformatted_faa_files := [3], merged_faa := some 4
        hmmout_dir_exists := true, hmm_out_files := [9], filter_files := [2]
        hits_dir_exists := true, hit_files := [5]
        aligned_t_dir_exists := true, aligned_files := [6]
        proteintrees_dir_exists := true, tree_files := [8]
        concat_file := some 10, mtime := 42 } = false
    ∧ find_existing_analysis false true
      [{ is_dir := true, workflow_log_exists := true, final_tree := some 7
         fasttree_complete_exists := false, iqtree_complete_exists := false
         analyses_dir_exists := true, reformatted_dir_exists := true
         reformatted_faa_files := [3], merged_faa := some 4
         hmmout_dir_exists := true, hmm_out_files := [9], filter_files := [2]
         hits_dir_exists := true, hit_files := [5]
         aligned_t_dir_exists := true, aligned_files := [6]
         proteintrees_dir_exists := true, tree_files := [8]
         concat_file := some 10, mtime := 42 }] = none := by
  have h := resume_exclusion
    { is_dir := true, workflow_log_exists := true, final_tree := some 7
      fasttree_complete_exists := false, iqtree_complete_exists := false
      analyses_dir_exists := true, reformatted_dir_exists := true
      reformatted_faa_files := [3], merged_faa := some 4
      hmmout_dir_exists := true, hmm_out_files := [9], filter_files := [2]
      hits_dir_exists := true, hit_files := [5]
      aligned_t_dir_exists := true, aligned_files := [6]
      proteintrees_dir_exists := true, tree_files := [8]
      concat_file := some 10, mtime := 42 } (Or.inl (by decide))
  exact ⟨h.1, h.2.2⟩

/-- Directory state with every artifact probed by
`_calculate_analysis_progress` present and non-empty. -/
def all_artifacts_dir : AnalysisDir :=
  { is_dir := true, workflow_log_exists := true, final_tree := some 1
    fasttree_complete_exists := true, iqtree_complete_exists := true
    analyses_dir_exists := true, reformatted_dir_exists := true
    reformatted_faa_files := [1], merged_faa := some 1
    hmmout_dir_exists := true, hmm_out_files := [1], filter_files := [1]
    hits_dir_exists := true, hit_files := [1]
    aligned_t_dir_exists := true, aligned_files := [1]
    proteintrees_dir_exists := true, tree_files := [1]
    concat_file := some 1, mtime := 0 }

/-- C5: the per-stage weights of `_calculate_analysis_progress` are
10, 5, 15, 5, 10, 15, 15, 20, 10 as the claim lists them, but they sum to
105, not 100: on a directory with every stage artifact present the computed
score is 105, exceeding the 0-100 range stated by the claim and by the
function's own docstring. -/
theorem progress_score_exceeds_hundred :
    calculate_analysis_progress all_artifacts_dir = 105
    ∧ ¬ calculate_analysis_progress all_artifacts_dir ≤ 100
    ∧ 10 + 5 + 15 + 5 + 10 + 15 + 15 + 20 + 10 = 105 := by
  decide

/-- Artifact-state order used by the monotonicity claim: `t` has every
artifact (with the size checks the code applies) that `s` has, and possibly
more, i.e. every stage probe true in `s` is true in `t`. -/
def dir_le (s t : AnalysisDir) : Prop :=
  (s.analyses_dir_exists = true → t.analyses_dir_exists = true)
  ∧ (reformat_done s = true → reformat_done t = true)
  ∧ (merged_done s = true → merged_done t = true)
  ∧ (hmm_done s = true → hmm_done t = true)
  ∧ (filter_done s = true → filter_done t = true)
  ∧ (hits_done s = true → hits_done t = true)
  ∧ (aligned_done s = true → aligned_done t = true)
  ∧ (ptrees_done s = true → ptrees_done t = true)
  ∧ (concat_done s = true → concat_done t = true)
  ∧ (final_done s = true → final_done t = true)

instance (s t : AnalysisDir) : Decidable (dir_le s t) := by
  unfold dir_le; infer_instance

/-- Weight summands are monotone in their probe. -/
lemma ite_weight_mono {a b : Bool} (h : a = true → b = true) (w : Nat) :
    (if a then w else 0) ≤ (if b then w else 0) := by
  cases a <;> cases b <;> simp_all

/-- C6: the progress score is monotone in the directory's artifact state —
if a second state of the run directory contains every (non-empty, where the
code checks sizes) artifact of a first state plus possibly more, its score is
at least the first state's score. -/
theorem progress_monotone (s t : AnalysisDir) (h : dir_le s t) :
    calculate_analysis_progress s ≤ calculate_analysis_progress t := by
  obtain ⟨h0, h1, h2, h3, h4, h5, h6, h7, h8, h9⟩ := h
  unfold calculate_analysis_progress
  by_cases hs : s.analyses_dir_exists = true
  · rw [if_pos hs, if_pos (h0 hs)]
    have m1 := ite_weight_mono h1 10
    have m2 := ite_weight_mono h2 5
    have m3 := ite_weight_mono h3 15
    have m4 := ite_weight_mono h4 5
    have m5 := ite_weight_mono h5 10
    have m6 := ite_weight_mono h6 15
    have m7 := ite_weight_mono h7 15
    have m8 := ite_weight_mono h8 20
    have m9 := ite_weight_mono h9 10
    omega
  · rw [if_neg hs]
    exact Nat.zero_le _

/-- Closed instance of C6: a half-finished state of a run directory scores no
more than the same directory after every artifact has appeared. -/
theorem progress_monotone_witness :
    dir_le
      { is_dir := true, workflow_log_exists := true, final_tree := none
        fasttree_complete_exists := false, iqtree_complete_exists := false
        analyses_dir_exists := true, reformatted_dir_exists := true
        reformatted_faa_files := [1], merged_faa := some 1
        hmmout_dir_exists := true, hmm_out_files := [1], filter_files := []
        hits_dir_exists := false, hit_files := []
        aligned_t_dir_exists := false, aligned_files := []
        proteintrees_dir_exists := false, tree_files := []
        concat_file := none, mtime := 0 } all_artifacts_dir
    ∧ calculate_analysis_progress
      { is_dir := true, workflow_log_exists := true, final_tree := none
        fasttree_complete_exists := false, iqtree_complete_exists := false
        analyses_dir_exists := true, reformatted_dir_exists := true
        reformatted_faa_files := [1], merged_faa := some 1
        hmmout_dir_exists := true, hmm_out_files := [1], filter_files := []
        hits_dir_exists := false, hit_files := []
        aligned_t_dir_exists := false, aligned_files := []
        proteintrees_dir_exists := false, tree_files := []
        concat_file := none, mtime := 0 }
      ≤ calculate_analysis_progress all_artifacts_dir := by
  refine ⟨by decide, progress_monotone _ _ (by decide)⟩

/-! ### Stage skip checks of the fan-out stages (main.py lines 676-755)

`_extract_hits_parallel` (lines 685-691) builds the list of expected
per-marker hits files and skips the stage when the number of files that merely
*exist* equals the number expected — no size check.  `_align_trim_parallel`
(lines 738-744) does the same for the per-marker trimmed alignments but counts
a file as completed only when it exists *and* has size > 0. -/

/-- Stage-level skip check of `_extract_hits_parallel` (main.py lines
686-691): the per-marker hits files, one `Option Nat` per marker; completed
means `f.exists()` only. -/
def extract_hits_skip (hits_files : List (Option Nat)) : Bool :=
  decide ((hits_files.filter (fun f => f.isSome)).length = hits_files.length)

/-- Stage-level skip check of `_align_trim_parallel` (main.py lines 739-744):
completed means `f.exists() and f.stat().st_size > 0`. -/
def align_trim_skip (trimmed_files : List (Option Nat)) : Bool :=
  decide ((trimmed_files.filter (fun f => file_nonempty f)).length
    = trimmed_files.length)

/-- Counting the elements kept by a filter reaches the list's length exactly
when every element satisfies the predicate. -/
lemma filter_length_all {α : Type} (p : α → Bool) (l : List α) :
    decide ((l.filter p).length = l.length) = l.all p := by
  induction l with
  | nil => rfl
  | cons a l ih =>
    by_cases ha : p a = true
    · simp only [List.filter_cons, ha, if_true, List.length_cons, List.all_cons,
        Bool.true_and, Nat.add_right_cancel_iff]
      exact ih
    · have hle := List.length_filter_le p l
      have ha' : p a = false := by simp [ha]
      simp only [List.filter_cons, ha', Bool.false_eq_true, if_false,
        List.length_cons, List.all_cons, Bool.false_and]
      exact decide_eq_false (by omega)

/-- C2 counterexample: with a single marker whose hits file exists but is
zero bytes, `_extract_hits_parallel` skips the stage although the artifact is
empty — refuting the claim that every stage treats a zero-byte artifact as
absent and re-executes. -/
theorem extract_skip_zero_byte_counterexample :
    extract_hits_skip [some 0] = true ∧ [some 0].all file_nonempty = false := by
  decide

/-- C2 amended: the alignment/trimming stage skips exactly when every expected
trimmed file exists and is non-empty, but the hit-extraction stage skips
exactly when every expected hits file merely exists — a zero-byte hits file
counts as present there and does not trigger re-execution. -/
theorem stage_skip_characterization :
    (∀ files : List (Option Nat), align_trim_skip files = files.all file_nonempty)
    ∧ (∀ files : List (Option Nat), extract_hits_skip files = files.all Option.isSome) :=
  ⟨fun files => filter_length_all _ files, fun files => filter_length_all _ files⟩

/-! ### Species-tree stage guard (`_build_species_tree`, main.py lines 926-962)

Strings handled character-wise by the scripts are embedded as `List Char`. -/

/-- Character-list embedding of the strings the scripts manipulate. -/
abbrev Str := List Char

/-- Genome count of `_build_species_tree` (main.py lines 951-955): if the
concatenated alignment exists (`some lines`) count the lines starting with
`>`, otherwise 0 (an existing zero-byte file has no lines and also counts
0, matching the code's `size > 0` guard). -/
def count_genomes : Option (List Str) → Nat
  | none => 0
  | some lines => (lines.filter (fun l => l.head? == some '>')).length

/-- The fatal diagnostic of main.py line 958. -/
def too_few_genomes_msg : String :=
  "Too few genomes in the supermatrix alignment. Check filtering thresholds to increase numbers of genomes to be retained."

/-- File-system facts probed by `_build_species_tree` before it decides what
to do: the completion flag, the previously built species tree, and the
concatenated alignment's lines. -/
structure SpeciesTreeState where
  complete_flag_exists : Bool
  species_tree : Option Nat
  concat_aln : Option (List Str)
deriving DecidableEq

/-- Outcome of `_build_species_tree`: `skipped` when the completion flag and a
non-empty species tree already exist (lines 940-945), `fatal` when the genome
count is at most 3 (lines 957-962, raised before any tree builder runs),
`built` otherwise — only this last branch writes a species-tree artifact. -/
inductive SpeciesTreeResult where
  | skipped
  | fatal (msg : String)
  | built
deriving DecidableEq

/-- Control flow of `_build_species_tree` (main.py lines 926-962). -/
def build_species_tree (st : SpeciesTreeState) : SpeciesTreeResult :=
  if st.complete_flag_exists && file_nonempty st.species_tree then
    SpeciesTreeResult.skipped
  else if count_genomes st.concat_aln ≤ 3 then
    SpeciesTreeResult.fatal too_few_genomes_msg
  else
    SpeciesTreeResult.built

/-- C3: when the species-tree stage actually runs (no completion flag with a
non-empty prior tree) and the concatenated alignment holds at most 3 records
whose line starts with `>`, the stage raises the fatal diagnostic naming the
filtering-threshold remediation, the tree builder never runs (the result is
not `built`, so no species-tree artifact is produced), and when the error
reaches `run_workflow` it is re-raised to the caller after the resource
report. -/
theorem species_tree_fatal_guard (st : SpeciesTreeState)
    (hrun : (st.complete_flag_exists && file_nonempty st.species_tree) = false)
    (hfew : count_genomes st.concat_aln ≤ 3) :
    build_species_tree st = SpeciesTreeResult.fatal too_few_genomes_msg
    ∧ build_species_tree st ≠ SpeciesTreeResult.built
    ∧ run_workflow true (Except.error too_few_genomes_msg)
        = [RunEvent.report, RunEvent.raised too_few_genomes_msg] := by
  have h1 : build_species_tree st = SpeciesTreeResult.fatal too_few_genomes_msg := by
    unfold build_species_tree
    rw [hrun]
    simp [hfew]
  exact ⟨h1, by rw [h1]; exact fun hcon => SpeciesTreeResult.noConfusion hcon, rfl⟩

/-- Closed instance of C3: a fresh stage state whose concatenated alignment
has exactly 3 genome records is fatal. -/
theorem species_tree_fatal_guard_witness :
    build_species_tree
      { complete_flag_exists := false, species_tree := none
        concat_aln := some [['>', 'a'], ['A', 'A'], ['>', 'b'], ['A', 'A'],
          ['>', 'c'], ['A', 'A']] }
      = SpeciesTreeResult.fatal too_few_genomes_msg :=
  (species_tree_fatal_guard
    { complete_flag_exists := false, species_tree := none
      concat_aln := some [['>', 'a'], ['A', 'A'], ['>', 'b'], ['A', 'A'],
        ['>', 'c'], ['A', 'A']] }
    (by decide) (by decide)).1

/-! ### Per-marker fan-out loops (main.py lines 676-724 and 804-901)

Both loops iterate over the marker list; the whole loop body for one marker
sits in a `try`/`except` whose handler logs the error, touches an empty
placeholder for the marker's output artifact(s) and lets the loop continue
with the next marker.  The external call a marker makes is embedded as an
oracle `String → Except String Nat` (`Except.error` = the body raised,
`Except.ok n` = the marker's output artifact was produced with `n` bytes). -/

/-- Loop body of `_extract_hits_parallel` for one marker (main.py lines
694-724): skip when the hits file already exists (any size), otherwise run
`extract_qhits.main`; on an exception write the empty placeholder
(`output_file.touch()`).  Returns the marker paired with its hits-file
size. -/
def extract_hit_for (extract : String → Except String Nat)
    (pre : String → Option Nat) (m : String) : String × Nat :=
  match pre m with
  | some sz => (m, sz)
  | none =>
    match extract m with
    | Except.ok sz => (m, sz)
    | Except.error _ => (m, 0)

/-- The `for model in models_list` loop of `_extract_hits_parallel`: every
marker is processed, failures included. -/
def extract_hits_loop (extract : String → Except String Nat)
    (pre : String → Option Nat) (models : List String) : List (String × Nat) :=
  models.map (extract_hit_for extract pre)

/-- Resulting state of one marker after `_build_trees_parallel`'s loop body:
the tree file's size and whether the `.complete` flag is set. -/
structure TreeEntry where
  model : String
  tree_size : Nat
  flag : Bool
deriving DecidableEq

/-- Loop body of `_build_trees_parallel` for one marker (main.py lines
832-901): skip when the completion flag exists and the tree file is
non-empty; otherwise, if the trimmed alignment is non-empty run the tree
builder, else touch an empty tree; the completion flag is touched at the end
of the `try` block and also in the `except` handler, which additionally
touches the empty placeholder tree. -/
def build_tree_for (builder : String → Except String Nat)
    (trimmed pre_tree : String → Option Nat) (pre_flag : String → Bool)
    (m : String) : TreeEntry :=
  if pre_flag m && file_nonempty (pre_tree m) then
    { model := m, tree_size := (pre_tree m).getD 0, flag := true }
  else
    match trimmed m with
    | some sz =>
      if 0 < sz then
        match builder m with
        | Except.ok tsz => { model := m, tree_size := tsz, flag := true }
        | Except.error _ => { model := m, tree_size := 0, flag := true }
      else { model := m, tree_size := 0, flag := true }
    | none => { model := m, tree_size := 0, flag := true }

/-- The `for model in models_list` loop of `_build_trees_parallel`. -/
def build_trees_loop (builder : String → Except String Nat)
    (trimmed pre_tree : String → Option Nat) (pre_flag : String → Bool)
    (models : List String) : List TreeEntry :=
  models.map (build_tree_for builder trimmed pre_tree pre_flag)

/-- Every branch of the tree-stage loop body sets the completion flag. -/
lemma build_tree_for_flag (builder : String → Except String Nat)
    (trimmed pre_tree : String → Option Nat) (pre_flag : String → Bool)
    (m : String) :
    (build_tree_for builder trimmed pre_tree pre_flag m).flag = true := by
  unfold build_tree_for
  split
  · rfl
  · split
    · split
      · split <;> rfl
      · rfl
    · rfl

/-- C4: in the fan-out loops, an exception while processing one marker is
caught inside that marker's iteration: the loop still yields one entry per
marker (never aborts), the failing marker's output is the empty placeholder,
and in the tree stage the completion flag is set for every marker whether its
tree artifact is real or an empty placeholder. -/
theorem marker_failure_isolation
    (extract builder : String → Except String Nat)
    (pre trimmed pre_tree : String → Option Nat) (pre_flag : String → Bool)
    (models : List String) (k : String) (e : String) (sz : Nat)
    (hk : k ∈ models) :
    (extract_hits_loop extract pre models).length = models.length
    ∧ (pre k = none → extract k = Except.error e →
        (k, 0) ∈ extract_hits_loop extract pre models)
    ∧ (build_trees_loop builder trimmed pre_tree pre_flag models).length
        = models.length
    ∧ (∀ entry ∈ build_trees_loop builder trimmed pre_tree pre_flag models,
        entry.flag = true)
    ∧ ((pre_flag k && file_nonempty (pre_tree k)) = false →
        trimmed k = some sz → 0 < sz → builder k = Except.error e →
        ({ model := k, tree_size := 0, flag := true } : TreeEntry)
          ∈ build_trees_loop builder trimmed pre_tree pre_flag models) := by
  refine ⟨List.length_map _ _, ?_, List.length_map _ _, ?_, ?_⟩
  · intro hpre hext
    have hval : extract_hit_for extract pre k = (k, 0) := by
      unfold extract_hit_for
      rw [hpre, hext]
    exact hval ▸ List.mem_map_of_mem _ hk
  · intro entry he
    obtain ⟨m, _, hEq⟩ := List.mem_map.mp he
    rw [← hEq]
    exact build_tree_for_flag builder trimmed pre_tree pre_flag m
  · intro hskip htr hsz hb
    have hval : build_tree_for builder trimmed pre_tree pre_flag k
        = { model := k, tree_size := 0, flag := true } := by
      unfold build_tree_for
      rw [hskip, htr, hb]
      simp [hsz]
    exact hval ▸ List.mem_map_of_mem _ hk

/-- Closed instance of C4: with two markers and oracles that always raise,
marker `m1` still yields the empty hits placeholder and an empty placeholder
tree whose completion flag is set. -/
theorem marker_failure_isolation_witness :
    ("m1", 0) ∈ extract_hits_loop (fun _ => Except.error "x") (fun _ => none)
      ["m1", "m2"]
    ∧ ({ model := "m1", tree_size := 0, flag := true } : TreeEntry)
        ∈ build_trees_loop (fun _ => Except.error "x") (fun _ => some 1)
          (fun _ => none) (fun _ => false) ["m1", "m2"] := by
  have h := marker_failure_isolation (fun _ => Except.error "x")
    (fun _ => Except.error "x") (fun _ => none) (fun _ => some 1)
    (fun _ => none) (fun _ => false) ["m1", "m2"] "m1" "x" 1 (by decide)
  exact ⟨h.2.1 rfl rfl, h.2.2.2.2 rfl rfl (by decide) rfl⟩

/-! ### String helpers shared by the scripts

`concat.py` and `reformat.py` key records by `id.split("|")[0]` and build ids
with `id.split()[0]`; both are embedded on `List Char`. -/

/-- Python `s.split(sep)[0]`: the prefix of `s` before the first `sep`
(the whole string when `sep` is absent). -/
def split_first (sep : Char) (s : Str) : Str :=
  s.takeWhile (fun c => c != sep)

/-- Genome key of a record id: `seq_record.id.split("|")[0]`
(concat.py lines 20, 30-31). -/
def taxon_of (id : Str) : Str :=
  split_first '|' id

/-- Python `s.split()[0]`: the first whitespace-delimited token (leading
spaces dropped).  Record ids produced by the FASTA parser are non-empty and
whitespace-free, for which this is the identity. -/
def first_token (s : Str) : Str :=
  (s.dropWhile (fun c => c == ' ')).takeWhile (fun c => c != ' ')

/-- A takeWhile over elements that all satisfy the predicate keeps the whole
list. -/
lemma takeWhile_eq_self_of_all {p : Char → Bool} :
    ∀ {s : Str}, (∀ c ∈ s, p c = true) → s.takeWhile p = s := by
  intro s
  induction s with
  | nil => intro _; rfl
  | cons a t ih =>
    intro h
    rw [List.takeWhile_cons, if_pos (h a (List.mem_cons_self _ _)),
      ih (fun c hc => h c (List.mem_cons_of_mem _ hc))]

/-- takeWhile walks through a prefix whose elements all satisfy the
predicate. -/
lemma takeWhile_append_of_all {p : Char → Bool} (l2 : Str) :
    ∀ {l1 : Str}, (∀ c ∈ l1, p c = true) →
      (l1 ++ l2).takeWhile p = l1 ++ l2.takeWhile p := by
  intro l1
  induction l1 with
  | nil => intro _; rfl
  | cons a t ih =>
    intro h
    rw [List.cons_append, List.takeWhile_cons,
      if_pos (h a (List.mem_cons_self _ _)),
      ih (fun c hc => h c (List.mem_cons_of_mem _ hc)), List.cons_append]

/-! ### Concatenation script (`src/workflow/scripts/concat.py`)

One alignment file is a list of records `(id, seq)`.  `get_taxa` collects the
genome keys of every record in every file, in order of first appearance.
`get_aln` reads one file: it takes the alignment length from the file's first
record — on an EMPTY file this leaves Python's local `aln_len` unassigned, so
the first loop iteration raises `UnboundLocalError` (embedded as
`Except.error`) — and appends to each taxon's segment list either the
taxon's (last-matching) record sequence or a `"?" * aln_len` gap segment.
The module-level loop (lines 37-44) wraps each `get_aln` call in
`try`/`except`, so a failing file leaves the accumulated dictionary
unchanged.  Lines 48-51 join each taxon's segments into the output record. -/

/-- One FASTA record of an alignment file: `(id, sequence)`. -/
abbrev SeqRec := Str × Str

/-- Taxa accumulator of `get_taxa` (concat.py lines 30-31): append the
record's genome key if unseen. -/
def add_taxon (taxa : List Str) (id : Str) : List Str :=
  if taxon_of id ∈ taxa then taxa else taxa ++ [taxon_of id]

/-- `get_taxa` (concat.py lines 26-32): genome keys over all files, in order
of first appearance. -/
def get_taxa (files : List (List SeqRec)) : List Str :=
  files.foldl (fun taxa file => file.foldl (fun taxa r => add_taxon taxa r.1) taxa) []

/-- Segment chosen for one taxon from one alignment file (concat.py lines
17-21): start from the `"?" * aln_len` gap and overwrite with each record
whose genome key matches (the last match wins). -/
def seg_for (records : List SeqRec) (aln_len : Nat) (taxon : Str) : Str :=
  records.foldl (fun acc r => if taxon_of r.1 = taxon then r.2 else acc)
    (List.replicate aln_len '?')

/-- Pointwise dictionary append (`final_dict[taxon].append(seq)`). -/
def append_at (d : Str → List Str) (k : Str) (v : Str) : Str → List Str :=
  fun x => if x = k then d x ++ [v] else d x

/-- `get_aln` (concat.py lines 11-23).  An empty file never assigns
`aln_len`, so with a non-empty taxa list the first `"?" * aln_len` raises
(`Except.error`); with an empty taxa list the loop body never runs.  A
non-empty file appends a segment for every taxon in order. -/
def get_aln (records : List SeqRec) (taxa : List Str) (d : Str → List Str) :
    Except Unit (Str → List Str) :=
  match records with
  | [] => if taxa = [] then Except.ok d else Except.error ()
  | r0 :: rest =>
    Except.ok (taxa.foldl
      (fun d2 taxon => append_at d2 taxon (seg_for (r0 :: rest) r0.2.length taxon)) d)

/-- Module-level loop body (concat.py lines 37-44): `try` the file; any
raised error is caught and the dictionary is left unchanged. -/
def concat_step (taxa : List Str) (d : Str → List Str) (file : List SeqRec) :
    Str → List Str :=
  match get_aln file taxa d with
  | Except.ok d2 => d2
  | Except.error _ => d

/-- The module-level loop of concat.py (lines 35-44): fold every alignment
file into the (initially empty) dictionary. -/
def concat_loop (files : List (List SeqRec)) : Str → List Str :=
  files.foldl (concat_step (get_taxa files)) (fun _ => [])

/-- Concatenated output record for one taxon (concat.py lines 48-51):
`"".join` of its segments. -/
def concat_result (files : List (List SeqRec)) (taxon : Str) : Str :=
  (concat_loop files taxon).flatten

/-- C9 counterexample: two marker alignment files, the second one an empty
placeholder (marker k's hit file was empty).  Genome `g1`'s concatenated
record consists of a single segment — the empty marker contributes no
gap-filled `"?"` segment at all — refuting the claim that concatenation
includes a gap-filled segment for marker k in every genome's record. -/
theorem concat_empty_marker_counterexample :
    (concat_loop [[(['g', '1', '|', 'p', '1'], ['A', 'B']),
      (['g', '2', '|', 'p', '2'], ['C', 'D'])], []] ['g', '1']).length = 1
    ∧ concat_result [[(['g', '1', '|', 'p', '1'], ['A', 'B']),
        (['g', '2', '|', 'p', '2'], ['C', 'D'])], []] ['g', '1'] = ['A', 'B']
    ∧ '?' ∉ concat_result [[(['g', '1', '|', 'p', '1'], ['A', 'B']),
        (['g', '2', '|', 'p', '2'], ['C', 'D'])], []] ['g', '1'] := by
  decide

/-- A foldl over steps that ignore the elements a filter would drop equals
the foldl over the filtered list. -/
lemma foldl_skip_filter {α β : Type} (step : β → α → β) (p : α → Bool)
    (h : ∀ (b : β) (a : α), p a = false → step b a = b) :
    ∀ (l : List α) (b : β), l.foldl step b = (l.filter p).foldl step b := by
  intro l
  induction l with
  | nil => intro _; rfl
  | cons a l ih =>
    intro b
    by_cases ha : p a = true
    · simp only [List.filter_cons, ha, if_true, List.foldl_cons]
      exact ih _
    · have ha' : p a = false := by simp [ha]
      simp only [List.filter_cons, ha', Bool.false_eq_true, if_false,
        List.foldl_cons]
      rw [h b a ha']
      exact ih _

/-- Empty files contribute no taxa. -/
lemma get_taxa_skip_empty (files : List (List SeqRec)) :
    get_taxa files = get_taxa (files.filter (fun f => !f.isEmpty)) := by
  unfold get_taxa
  refine foldl_skip_filter _ _ (fun b f hf => ?_) files []
  have hemp : f = [] := by
    rcases f with _ | ⟨x, t⟩
    · rfl
    · simp at hf
  subst hemp
  rfl

/-- The caught `get_aln` failure on an empty file leaves the dictionary
unchanged. -/
lemma concat_step_empty (taxa : List Str) (d : Str → List Str) :
    concat_step taxa d [] = d := by
  unfold concat_step get_aln
  by_cases h : taxa = [] <;> simp [h]

/-- A segment fold with no matching record keeps its initial value. -/
lemma seg_fold_no_match (t : Str) :
    ∀ (records : List SeqRec) (init : Str),
      (∀ r ∈ records, taxon_of r.1 ≠ t) →
      records.foldl (fun acc r => if taxon_of r.1 = t then r.2 else acc) init
        = init := by
  intro records
  induction records with
  | nil => intro _ _; rfl
  | cons r rs ih =>
    intro init h
    rw [List.foldl_cons, if_neg (h r (List.mem_cons_self _ _))]
    exact ih init (fun x hx => h x (List.mem_cons_of_mem _ hx))

/-- C9 amended: an empty marker alignment file is silently dropped — the
whole concatenation result is the one computed from the non-empty files
alone, so no `"?"` gap segment exists for the empty marker; gap filling with
`"?" * aln_len` happens only inside a non-empty alignment file, for a taxon
none of whose records appear in that file. -/
theorem concat_skips_empty_markers :
    (∀ files : List (List SeqRec),
        concat_loop files = concat_loop (files.filter (fun f => !f.isEmpty)))
    ∧ (∀ (r0 : SeqRec) (rs : List SeqRec) (t : Str),
        (∀ r ∈ r0 :: rs, taxon_of r.1 ≠ t) →
        seg_for (r0 :: rs) r0.2.length t = List.replicate r0.2.length '?') := by
  constructor
  · intro files
    unfold concat_loop
    rw [← get_taxa_skip_empty]
    refine foldl_skip_filter _ _ (fun d f hf => ?_) files _
    have hemp : f = [] := by
      rcases f with _ | ⟨x, t⟩
      · rfl
      · simp at hf
    subst hemp
    exact concat_step_empty _ _
  · intro r0 rs t h
    unfold seg_for
    exact seg_fold_no_match t (r0 :: rs) _ h

/-- Closed instance of the amended C9: dropping the empty file does not
change genome `a`'s concatenated record, and within the non-empty file a
genome with no record gets the `"?" * aln_len` gap segment. -/
theorem concat_skips_empty_markers_witness :
    concat_loop [[(['a', '|', '1'], ['X', 'Y'])], []] ['a']
      = concat_loop ([[(['a', '|', '1'], ['X', 'Y'])], []].filter
          (fun f => !f.isEmpty)) ['a']
    ∧ seg_for [(['a', '|', '1'], ['X', 'Y'])] 2 ['b'] = List.replicate 2 '?' := by
  have h := concat_skips_empty_markers
  exact ⟨congrFun (h.1 [[(['a', '|', '1'], ['X', 'Y'])], []]) ['a'],
    h.2 (['a', '|', '1'], ['X', 'Y']) [] ['b'] (by decide)⟩

/-! ### Reformatting script (`src/workflow/scripts/reformat.py`)

For each record of a genome file whose basename without extension is
`querybase`, `main` (lines 19-33) rewrites the record id: if the id contains
`|` and its first `|`-field already equals `querybase` the id is kept
(`id.split()[0]`); otherwise the id becomes `querybase + "|" + id.split()[0]`.
The record's description is blanked, so the written header is exactly the new
id. -/

/-- Per-record id rewrite of reformat.py lines 20-33. -/
def reformat_id (querybase : Str) (id : Str) : Str :=
  if '|' ∈ id then
    if split_first '|' id = querybase then first_token id
    else querybase ++ '|' :: first_token id
  else querybase ++ '|' :: first_token id

/-- C10 counterexample: for a genome file named `a|b.faa` (basename `a|b`)
and a record id `p1` without `|`, the written id is `a|b|p1`, whose first
`|`-separated field is `a`, not the basename `a|b` — refuting the claim for
every genome file name. -/
theorem reformat_pipe_basename_counterexample :
    reformat_id ['a', '|', 'b'] ['p', '1'] = ['a', '|', 'b', '|', 'p', '1']
    ∧ taxon_of (reformat_id ['a', '|', 'b'] ['p', '1']) = ['a']
    ∧ (['a'] : Str) ≠ ['a', '|', 'b'] := by
  decide

/-- A whitespace-free non-empty id is its own first token. -/
lemma first_token_eq_self {id : Str} (hsp : ' ' ∉ id) (hne : id ≠ []) :
    first_token id = id := by
  unfold first_token
  cases id with
  | nil => exact absurd rfl hne
  | cons a t =>
    have ha : (a == ' ') = false := by
      have h : a ≠ ' ' := fun h => hsp (h ▸ List.mem_cons_self _ _)
      simp [h]
    rw [List.dropWhile_cons, ha]
    simp only [Bool.false_eq_true, if_false]
    exact takeWhile_eq_self_of_all (fun c hc => by
      have h : c ≠ ' ' := fun h => hsp (h ▸ hc)
      simp [h])

/-- Splitting `querybase ++ "|" ++ rest` at the first pipe recovers
`querybase` when `querybase` is pipe-free. -/
lemma taxon_of_append_pipe {querybase : Str} (rest : Str)
    (hq : '|' ∉ querybase) :
    taxon_of (querybase ++ '|' :: rest) = querybase := by
  unfold taxon_of split_first
  rw [takeWhile_append_of_all _ (fun c hc => by
    have h : c ≠ '|' := fun h => hq (h ▸ hc)
    simp [h])]
  rw [List.takeWhile_cons]
  simp

/-- C10 amended: provided the genome file's basename contains no `|` (the
workflow log's stated input convention — record ids from the FASTA parser are
themselves non-empty and whitespace-free), every record id written by the
reformatting stage has `querybase` as its first `|`-separated field, in all
three cases of the input id (already `querybase|`-prefixed, other
`|`-containing id, or pipe-free id). -/
theorem reformat_prefix_invariant (querybase id : Str)
    (hq : '|' ∉ querybase) (hsp : ' ' ∉ id) (hne : id ≠ []) :
    taxon_of (reformat_id querybase id) = querybase := by
  unfold reformat_id
  by_cases hpipe : '|' ∈ id
  · rw [if_pos hpipe]
    by_cases hqb : split_first '|' id = querybase
    · rw [if_pos hqb, first_token_eq_self hsp hne]
      exact hqb
    · rw [if_neg hqb]
      exact taxon_of_append_pipe _ hq
  · rw [if_neg hpipe]
    exact taxon_of_append_pipe _ hq

/-- Closed instance of the amended C10: a pipe-free basename `g1` with an
already-prefixed record id keeps `g1` as the first field. -/
theorem reformat_prefix_invariant_witness :
    taxon_of (reformat_id ['g', '1'] ['g', '1', '|', 'p', '7']) = ['g', '1'] :=
  reformat_prefix_invariant ['g', '1'] ['g', '1', '|', 'p', '7']
    (by decide) (by decide) (by decide)

end NSGTree
